import Mathlib

/-!
Shallow embedding of `src/stores/GroupStore.js` (matrix-react-sdk):
a client-side cache-and-notify store for one group. Promise completions
are modelled as explicit result values fed to pure handler functions;
the synchronous issuance of backend calls and event emissions is
recorded as a trace of actions.
-/

namespace GroupStore

/-- An HTTP-like backend failure. `httpStatus` is `none` when the field
is absent on the error object (JS `undefined`). -/
structure HttpError where
  httpStatus : Option Nat
  message : String
  deriving DecidableEq, Repr

/-- Result of an asynchronous backend call: the promise either fulfils
with a value or rejects with an error. -/
inductive Outcome (α : Type) where
  | ok : α → Outcome α
  | fail : HttpError → Outcome α
  deriving DecidableEq, Repr

/-- The `user` sub-record of a group summary, with the two optional
fields the store reads (`is_publicised`, `is_privileged`); `none`
models an absent field (JS `undefined`). -/
structure SummaryUser where
  is_publicised : Option Bool
  is_privileged : Option Bool
  deriving DecidableEq, Repr

/-- A group summary as returned verbatim by `getGroupSummary`: the
store only ever inspects the optional `user` sub-record. The initial
cache value `{}` is `⟨none⟩`. -/
structure Summary where
  user : Option SummaryUser
  deriving DecidableEq, Repr

/-- A backend member record (element of the `chunk` array of
`getGroupUsers` / `getGroupInvitedUsers`). -/
structure ApiMember where
  user_id : String
  displayname : Option String
  deriving DecidableEq, Repr

/-- Modelled from the spec: a GroupMember, the "mapped projection of a
backend member record (user identifier, membership fields)". The
projection function lives in `src/groups.js`, which is not part of
this snapshot; the claims only use that the projection is applied. -/
structure GroupMember where
  userId : String
  displayname : Option String
  deriving DecidableEq, Repr

/-- Modelled from the spec: the external member-projection collaborator
`groupMemberFromApiObject` from `src/groups.js` (not in the snapshot). -/
def groupMemberFromApiObject (m : ApiMember) : GroupMember :=
  ⟨m.user_id, m.displayname⟩

/-- A backend room record (element of the `chunk` array of
`getGroupRooms`). -/
structure ApiRoom where
  room_id : String
  name : Option String
  deriving DecidableEq, Repr

/-- Modelled from the spec: a GroupRoom, the "mapped projection of a
backend room record (room identifier, display fields)". -/
structure GroupRoom where
  roomId : String
  name : Option String
  deriving DecidableEq, Repr

/-- Modelled from the spec: the external room-projection collaborator
`groupRoomFromApiObject` from `src/groups.js` (not in the snapshot). -/
def groupRoomFromApiObject (r : ApiRoom) : GroupRoom :=
  ⟨r.room_id, r.name⟩

/-- Response of `getGroupUsers` / `getGroupInvitedUsers`: an object
with a `chunk` array of member records. -/
structure MembersResp where
  chunk : List ApiMember
  deriving DecidableEq, Repr

/-- Response of `getGroupRooms`: an object with a `chunk` array of
room records. -/
structure RoomsResp where
  chunk : List ApiRoom
  deriving DecidableEq, Repr

/-- The four values of `GroupStore.STATE_KEY`. -/
def STATE_KEY_GroupMembers : String := "GroupMembers"

/-- `STATE_KEY.GroupInvitedMembers`. -/
def STATE_KEY_GroupInvitedMembers : String := "GroupInvitedMembers"

/-- `STATE_KEY.Summary`. -/
def STATE_KEY_Summary : String := "Summary"

/-- `STATE_KEY.GroupRooms`. -/
def STATE_KEY_GroupRooms : String := "GroupRooms"

/-- The mutable fields of a `GroupStore` instance. `ready` models the
plain JS object `this._ready` by its observable content: reading a key
yields `some b` when the property is set and `none` when it is absent
(JS `undefined`). `credentialsUserId` models
`this._matrixClient.credentials.userId`. -/
structure StoreState where
  groupId : String
  credentialsUserId : String
  summary : Summary
  rooms : List GroupRoom
  members : List GroupMember
  invitedMembers : List GroupMember
  ready : String → Option Bool

/-- Setting a property on the `_ready` object:
`this._ready[key] = true`. -/
def setReady (r : String → Option Bool) (key : String) : String → Option Bool :=
  fun k => if k = key then some true else r k

/-- Everything the synchronous body of a store method does besides
mutating its own fields: issuing backend calls, calling the flair
cache, and emitting events. -/
inductive Action where
  | callGetGroupSummary
  | callGetGroupRooms
  | callGetGroupUsers
  | callGetGroupInvitedUsers
  | callAddRoomToGroup (roomId : String) (isPublic : Bool)
  | callUpdateGroupRoomVisibility (roomId : String) (isPublic : Bool)
  | callRemoveRoomFromGroup (roomId : String)
  | callInviteUserToGroup (userId : String)
  | callAcceptGroupInvite
  | callAddRoomToGroupSummary (roomId : String) (categoryId : Option String)
  | callAddUserToGroupSummary (userId : String) (roleId : Option String)
  | callRemoveRoomFromGroupSummary (roomId : String)
  | callRemoveUserFromGroupSummary (userId : String)
  | callSetGroupPublicity (isPublished : Bool)
  | invalidatePublicisedGroups (userId : String)
  | emitUpdate
  | emitError (e : HttpError)
  deriving DecidableEq, Repr

/-- The field initialisation performed by the constructor body (lines
39 to 45 of the source): summary `{}`, rooms, members and invited
members `[]`, `_ready` the empty object. -/
def initState (credentialsUserId groupId : String) : StoreState :=
  { groupId := groupId
    credentialsUserId := credentialsUserId
    summary := ⟨none⟩
    rooms := []
    members := []
    invitedMembers := []
    ready := fun _ => none }

/-- `constructor(matrixClient, groupId)`. `groupId` is an optional
string so that both the absent and the empty identifier are covered by
the falsiness test `if (!groupId) throw ...`; on success every cache
starts empty and `_ready` is the empty object. -/
def construct (credentialsUserId : String) (groupId : Option String) :
    Except String StoreState :=
  match groupId with
  | none => Except.error "GroupStore needs a valid groupId to be created"
  | some g =>
    if g = "" then
      Except.error "GroupStore needs a valid groupId to be created"
    else
      Except.ok (initState credentialsUserId g)

/-- The synchronous effect of calling `_fetchSummary()`: it issues the
`getGroupSummary` backend call. -/
def fetchSummaryIssue : List Action := [Action.callGetGroupSummary]

/-- The synchronous effect of calling `_fetchRooms()`. -/
def fetchRoomsIssue : List Action := [Action.callGetGroupRooms]

/-- The synchronous effect of calling `_fetchMembers()`: it issues
both the members and the invited-members backend calls. -/
def fetchMembersIssue : List Action :=
  [Action.callGetGroupUsers, Action.callGetGroupInvitedUsers]

/-- Completion of the summary fetch started by `_fetchSummary`: on
fulfilment the summary cache is replaced verbatim, `Summary` readiness
is set and listeners are notified; on rejection the state is untouched
and an "error" event is emitted. -/
def fetchSummaryComplete (r : Outcome Summary) (s : StoreState) :
    StoreState × List Action :=
  match r with
  | Outcome.ok resp =>
    ({ s with summary := resp, ready := setReady s.ready STATE_KEY_Summary },
     [Action.emitUpdate])
  | Outcome.fail e => (s, [Action.emitError e])

/-- Completion of the rooms fetch started by `_fetchRooms`: on
fulfilment each `chunk` entry is projected through
`groupRoomFromApiObject` (order preserved), the rooms cache is
replaced, `GroupRooms` readiness is set and listeners are notified; on
rejection the state is untouched and an "error" event is emitted. -/
def fetchRoomsComplete (r : Outcome RoomsResp) (s : StoreState) :
    StoreState × List Action :=
  match r with
  | Outcome.ok resp =>
    ({ s with rooms := resp.chunk.map groupRoomFromApiObject,
              ready := setReady s.ready STATE_KEY_GroupRooms },
     [Action.emitUpdate])
  | Outcome.fail e => (s, [Action.emitError e])

/-- Completion of the members fetch started by `_fetchMembers`
(`getGroupUsers` branch). -/
def fetchMembersComplete (r : Outcome MembersResp) (s : StoreState) :
    StoreState × List Action :=
  match r with
  | Outcome.ok resp =>
    ({ s with members := resp.chunk.map groupMemberFromApiObject,
              ready := setReady s.ready STATE_KEY_GroupMembers },
     [Action.emitUpdate])
  | Outcome.fail e => (s, [Action.emitError e])

/-- Completion of the invited-members fetch started by `_fetchMembers`
(`getGroupInvitedUsers` branch): a rejection whose error carries
`httpStatus === 403` is swallowed silently; any other rejection emits
an "error" event; either way the state is untouched. -/
def fetchInvitedMembersComplete (r : Outcome MembersResp) (s : StoreState) :
    StoreState × List Action :=
  match r with
  | Outcome.ok resp =>
    ({ s with invitedMembers := resp.chunk.map groupMemberFromApiObject,
              ready := setReady s.ready STATE_KEY_GroupInvitedMembers },
     [Action.emitUpdate])
  | Outcome.fail e =>
    if e.httpStatus = some 403 then (s, [])
    else (s, [Action.emitError e])

/-- `getSummary()`. -/
def getSummary (s : StoreState) : Summary := s.summary

/-- `getGroupRooms()`. -/
def getGroupRooms (s : StoreState) : List GroupRoom := s.rooms

/-- `getGroupMembers()`. -/
def getGroupMembers (s : StoreState) : List GroupMember := s.members

/-- `getGroupInvitedMembers()`. -/
def getGroupInvitedMembers (s : StoreState) : List GroupMember :=
  s.invitedMembers

/-- `isStateReady(id)`: reads the `id` property of the `_ready`
object; `none` is JS `undefined`. -/
def isStateReady (s : StoreState) (id : String) : Option Bool := s.ready id

/-- A JS value as returned by `getGroupPublicity` / `isUserPrivileged`:
the literal `null`, the absent-property value `undefined`, or a
boolean. -/
inductive JsNullable where
  | null
  | undef
  | val (b : Bool)
  deriving DecidableEq, Repr

/-- Embed an optional field read: an absent property is `undefined`. -/
def jsField (o : Option Bool) : JsNullable :=
  match o with
  | none => JsNullable.undef
  | some b => JsNullable.val b

/-- `getGroupPublicity()`:
`this._summary.user ? this._summary.user.is_publicised : null`. -/
def getGroupPublicity (s : StoreState) : JsNullable :=
  match s.summary.user with
  | none => JsNullable.null
  | some u => jsField u.is_publicised

/-- `isUserPrivileged()`:
`this._summary.user ? this._summary.user.is_privileged : null`. -/
def isUserPrivileged (s : StoreState) : JsNullable :=
  match s.summary.user with
  | none => JsNullable.null
  | some u => jsField u.is_privileged

/-- `registerListener(fn)`: appends `fn` to the "update" subscribers,
then runs its synchronous body: one update emission (delivered to the
subscribers at that moment, hence including `fn`), then the calls
`_fetchSummary(); _fetchRooms(); _fetchMembers();`, each of which only
issues its backend request(s). Subscribers are modelled by opaque
identifiers. The result is the new subscriber list and the trace of
the synchronous body. -/
def registerListener (listeners : List Nat) (fn : Nat) :
    List Nat × List Action :=
  (listeners ++ [fn],
   [Action.emitUpdate] ++ fetchSummaryIssue ++ fetchRoomsIssue
     ++ fetchMembersIssue)

/-- `unregisterListener(fn)`: the removeListener call removes
the first matching subscription and has no other effect. -/
def unregisterListener (listeners : List Nat) (fn : Nat) :
    List Nat × List Action :=
  (listeners.eraseP (fun g => g = fn), [])

/-- The result of running one mutation operation to quiescence:
the final store state, the trace of backend calls / flair-cache calls
/ events (issuance order), and the settlement of the promise the
mutation returns to its caller. -/
structure MutationRun where
  state : StoreState
  trace : List Action
  completion : Outcome Unit

/-- `addRoomToGroup(roomId, isPublic)`:
`matrixClient.addRoomToGroup(...).then(this._fetchRooms.bind(this))`.
If the backend call rejects, the chain rejects with that error and
`_fetchRooms` never runs. If it fulfils, `_fetchRooms` issues the
rooms fetch and returns `undefined`, so the returned promise fulfils
regardless of how the rooms fetch later settles; the rooms completion
(`roomsR`) is handled by the fetch handler alone. -/
def addRoomToGroup (s : StoreState) (roomId : String) (isPublic : Bool)
    (backend : Outcome Unit) (roomsR : Outcome RoomsResp) : MutationRun :=
  match backend with
  | Outcome.fail e =>
    ⟨s, [Action.callAddRoomToGroup roomId isPublic], Outcome.fail e⟩
  | Outcome.ok _ =>
    let c := fetchRoomsComplete roomsR s
    ⟨c.1,
     Action.callAddRoomToGroup roomId isPublic :: fetchRoomsIssue ++ c.2,
     Outcome.ok ()⟩

/-- `updateGroupRoomVisibility(roomId, isPublic)`: backend call, then
`_fetchRooms`. -/
def updateGroupRoomVisibility (s : StoreState) (roomId : String)
    (isPublic : Bool) (backend : Outcome Unit) (roomsR : Outcome RoomsResp) :
    MutationRun :=
  match backend with
  | Outcome.fail e =>
    ⟨s, [Action.callUpdateGroupRoomVisibility roomId isPublic], Outcome.fail e⟩
  | Outcome.ok _ =>
    let c := fetchRoomsComplete roomsR s
    ⟨c.1,
     Action.callUpdateGroupRoomVisibility roomId isPublic
       :: fetchRoomsIssue ++ c.2,
     Outcome.ok ()⟩

/-- `removeRoomFromGroup(roomId)`: backend call, then `_fetchSummary`,
then `_fetchRooms`. Both `.then` callbacks return `undefined`, so both
refresh fetches are issued (summary first) once the remove call
fulfils, and the returned promise fulfils whatever the two fetches
later do; on backend rejection neither fetch is issued. -/
def removeRoomFromGroup (s : StoreState) (roomId : String)
    (backend : Outcome Unit) (summaryR : Outcome Summary)
    (roomsR : Outcome RoomsResp) : MutationRun :=
  match backend with
  | Outcome.fail e =>
    ⟨s, [Action.callRemoveRoomFromGroup roomId], Outcome.fail e⟩
  | Outcome.ok _ =>
    let c1 := fetchSummaryComplete summaryR s
    let c2 := fetchRoomsComplete roomsR c1.1
    ⟨c2.1,
     Action.callRemoveRoomFromGroup roomId
       :: fetchSummaryIssue ++ fetchRoomsIssue ++ c1.2 ++ c2.2,
     Outcome.ok ()⟩

/-- `inviteUserToGroup(userId)`: backend call, then `_fetchMembers`
(which issues both the members and the invited-members fetches). -/
def inviteUserToGroup (s : StoreState) (userId : String)
    (backend : Outcome Unit) (membersR : Outcome MembersResp)
    (invitedR : Outcome MembersResp) : MutationRun :=
  match backend with
  | Outcome.fail e =>
    ⟨s, [Action.callInviteUserToGroup userId], Outcome.fail e⟩
  | Outcome.ok _ =>
    let c1 := fetchMembersComplete membersR s
    let c2 := fetchInvitedMembersComplete invitedR c1.1
    ⟨c2.1,
     Action.callInviteUserToGroup userId
       :: fetchMembersIssue ++ c1.2 ++ c2.2,
     Outcome.ok ()⟩

/-- `acceptGroupInvite()`: backend call, then `_fetchRooms`, then
`_fetchMembers`. -/
def acceptGroupInvite (s : StoreState) (backend : Outcome Unit)
    (roomsR : Outcome RoomsResp) (membersR : Outcome MembersResp)
    (invitedR : Outcome MembersResp) : MutationRun :=
  match backend with
  | Outcome.fail e =>
    ⟨s, [Action.callAcceptGroupInvite], Outcome.fail e⟩
  | Outcome.ok _ =>
    let c1 := fetchRoomsComplete roomsR s
    let c2 := fetchMembersComplete membersR c1.1
    let c3 := fetchInvitedMembersComplete invitedR c2.1
    ⟨c3.1,
     Action.callAcceptGroupInvite
       :: fetchRoomsIssue ++ fetchMembersIssue ++ c1.2 ++ c2.2 ++ c3.2,
     Outcome.ok ()⟩

/-- `addRoomToGroupSummary(roomId, categoryId)`: backend call, then
`_fetchSummary`. -/
def addRoomToGroupSummary (s : StoreState) (roomId : String)
    (categoryId : Option String) (backend : Outcome Unit)
    (summaryR : Outcome Summary) : MutationRun :=
  match backend with
  | Outcome.fail e =>
    ⟨s, [Action.callAddRoomToGroupSummary roomId categoryId], Outcome.fail e⟩
  | Outcome.ok _ =>
    let c := fetchSummaryComplete summaryR s
    ⟨c.1,
     Action.callAddRoomToGroupSummary roomId categoryId
       :: fetchSummaryIssue ++ c.2,
     Outcome.ok ()⟩

/-- `addUserToGroupSummary(userId, roleId)`: backend call, then
`_fetchSummary`. -/
def addUserToGroupSummary (s : StoreState) (userId : String)
    (roleId : Option String) (backend : Outcome Unit)
    (summaryR : Outcome Summary) : MutationRun :=
  match backend with
  | Outcome.fail e =>
    ⟨s, [Action.callAddUserToGroupSummary userId roleId], Outcome.fail e⟩
  | Outcome.ok _ =>
    let c := fetchSummaryComplete summaryR s
    ⟨c.1,
     Action.callAddUserToGroupSummary userId roleId
       :: fetchSummaryIssue ++ c.2,
     Outcome.ok ()⟩

/-- `removeRoomFromGroupSummary(roomId)`: backend call, then
`_fetchSummary`. -/
def removeRoomFromGroupSummary (s : StoreState) (roomId : String)
    (backend : Outcome Unit) (summaryR : Outcome Summary) : MutationRun :=
  match backend with
  | Outcome.fail e =>
    ⟨s, [Action.callRemoveRoomFromGroupSummary roomId], Outcome.fail e⟩
  | Outcome.ok _ =>
    let c := fetchSummaryComplete summaryR s
    ⟨c.1,
     Action.callRemoveRoomFromGroupSummary roomId
       :: fetchSummaryIssue ++ c.2,
     Outcome.ok ()⟩

/-- `removeUserFromGroupSummary(userId)`: backend call, then
`_fetchSummary`. -/
def removeUserFromGroupSummary (s : StoreState) (userId : String)
    (backend : Outcome Unit) (summaryR : Outcome Summary) : MutationRun :=
  match backend with
  | Outcome.fail e =>
    ⟨s, [Action.callRemoveUserFromGroupSummary userId], Outcome.fail e⟩
  | Outcome.ok _ =>
    let c := fetchSummaryComplete summaryR s
    ⟨c.1,
     Action.callRemoveUserFromGroupSummary userId
       :: fetchSummaryIssue ++ c.2,
     Outcome.ok ()⟩

/-- `setGroupPublicity(isPublished)`: backend call, then
`FlairStore.invalidatePublicisedGroups(matrixClient.credentials.userId)`,
then `_fetchSummary`. The invalidation runs only once the backend call
fulfils, and before the summary fetch is issued. -/
def setGroupPublicity (s : StoreState) (isPublished : Bool)
    (backend : Outcome Unit) (summaryR : Outcome Summary) : MutationRun :=
  match backend with
  | Outcome.fail e =>
    ⟨s, [Action.callSetGroupPublicity isPublished], Outcome.fail e⟩
  | Outcome.ok _ =>
    let c := fetchSummaryComplete summaryR s
    ⟨c.1,
     Action.callSetGroupPublicity isPublished
       :: Action.invalidatePublicisedGroups s.credentialsUserId
       :: fetchSummaryIssue ++ c.2,
     Outcome.ok ()⟩

/-- One asynchronous fetch completion — the only events that ever
write the store fields. -/
inductive FetchResult where
  | summary (r : Outcome Summary)
  | rooms (r : Outcome RoomsResp)
  | members (r : Outcome MembersResp)
  | invitedMembers (r : Outcome MembersResp)
  deriving DecidableEq, Repr

/-- Dispatch one fetch completion to its handler. -/
def applyFetch (s : StoreState) (f : FetchResult) : StoreState × List Action :=
  match f with
  | FetchResult.summary r => fetchSummaryComplete r s
  | FetchResult.rooms r => fetchRoomsComplete r s
  | FetchResult.members r => fetchMembersComplete r s
  | FetchResult.invitedMembers r => fetchInvitedMembersComplete r s

/-- Run a sequence of fetch completions, oldest first. -/
def run (s : StoreState) : List FetchResult → StoreState
  | [] => s
  | f :: fs => run (applyFetch s f).1 fs

/-- The `STATE_KEY` a fetch completion belongs to. -/
def keyOf (f : FetchResult) : String :=
  match f with
  | FetchResult.summary _ => STATE_KEY_Summary
  | FetchResult.rooms _ => STATE_KEY_GroupRooms
  | FetchResult.members _ => STATE_KEY_GroupMembers
  | FetchResult.invitedMembers _ => STATE_KEY_GroupInvitedMembers

/-- Whether a fetch completion is a fulfilment (success). -/
def isSuccess (f : FetchResult) : Bool :=
  match f with
  | FetchResult.summary (Outcome.ok _) => true
  | FetchResult.rooms (Outcome.ok _) => true
  | FetchResult.members (Outcome.ok _) => true
  | FetchResult.invitedMembers (Outcome.ok _) => true
  | _ => false

/-- Whether the trace contains a successful fetch for state key `k`. -/
def hasSuccessFor (k : String) (fs : List FetchResult) : Bool :=
  fs.any (fun f => isSuccess f && keyOf f = k)

/-- The payload of the last successful summary fetch in the trace. -/
def lastSummarySuccess : List FetchResult → Option Summary
  | [] => none
  | f :: fs =>
    match lastSummarySuccess fs with
    | some r => some r
    | none =>
      match f with
      | FetchResult.summary (Outcome.ok resp) => some resp
      | _ => none

/-- The payload of the last successful rooms fetch in the trace. -/
def lastRoomsSuccess : List FetchResult → Option RoomsResp
  | [] => none
  | f :: fs =>
    match lastRoomsSuccess fs with
    | some r => some r
    | none =>
      match f with
      | FetchResult.rooms (Outcome.ok resp) => some resp
      | _ => none

/-- The payload of the last successful members fetch in the trace. -/
def lastMembersSuccess : List FetchResult → Option MembersResp
  | [] => none
  | f :: fs =>
    match lastMembersSuccess fs with
    | some r => some r
    | none =>
      match f with
      | FetchResult.members (Outcome.ok resp) => some resp
      | _ => none

/-- The payload of the last successful invited-members fetch in the
trace. -/
def lastInvitedSuccess : List FetchResult → Option MembersResp
  | [] => none
  | f :: fs =>
    match lastInvitedSuccess fs with
    | some r => some r
    | none =>
      match f with
      | FetchResult.invitedMembers (Outcome.ok resp) => some resp
      | _ => none

/-- One fetch completion updates the `_ready` object at exactly the
key of a successful fetch and nowhere else. -/
theorem applyFetch_ready_eq (s : StoreState) (f : FetchResult) (k : String) :
    (applyFetch s f).1.ready k =
      if isSuccess f = true ∧ keyOf f = k then some true else s.ready k := by
  cases f with
  | summary r =>
    cases r with
    | ok resp =>
      by_cases hk : STATE_KEY_Summary = k
      · simp [applyFetch, fetchSummaryComplete, isSuccess, keyOf, setReady, hk]
      · simp [applyFetch, fetchSummaryComplete, isSuccess, keyOf, setReady,
          hk, Ne.symm hk]
    | fail e => simp [applyFetch, fetchSummaryComplete, isSuccess]
  | rooms r =>
    cases r with
    | ok resp =>
      by_cases hk : STATE_KEY_GroupRooms = k
      · simp [applyFetch, fetchRoomsComplete, isSuccess, keyOf, setReady, hk]
      · simp [applyFetch, fetchRoomsComplete, isSuccess, keyOf, setReady,
          hk, Ne.symm hk]
    | fail e => simp [applyFetch, fetchRoomsComplete, isSuccess]
  | members r =>
    cases r with
    | ok resp =>
      by_cases hk : STATE_KEY_GroupMembers = k
      · simp [applyFetch, fetchMembersComplete, isSuccess, keyOf, setReady, hk]
      · simp [applyFetch, fetchMembersComplete, isSuccess, keyOf, setReady,
          hk, Ne.symm hk]
    | fail e => simp [applyFetch, fetchMembersComplete, isSuccess]
  | invitedMembers r =>
    cases r with
    | ok resp =>
      by_cases hk : STATE_KEY_GroupInvitedMembers = k
      · simp [applyFetch, fetchInvitedMembersComplete, isSuccess, keyOf,
          setReady, hk]
      · simp [applyFetch, fetchInvitedMembersComplete, isSuccess, keyOf,
          setReady, hk, Ne.symm hk]
    | fail e =>
      simp only [applyFetch, fetchInvitedMembersComplete, isSuccess]
      split <;> simp

/-- A fetch completion either sets a readiness entry to `true` or
leaves it unchanged; it never clears one. -/
theorem applyFetch_ready_mono (s : StoreState) (f : FetchResult) (k : String) :
    (applyFetch s f).1.ready k = some true ∨
    (applyFetch s f).1.ready k = s.ready k := by
  rw [applyFetch_ready_eq]
  split
  · exact Or.inl rfl
  · exact Or.inr rfl

/-- Two chained fetch completions never clear a readiness entry. -/
theorem applyFetch_ready_mono2 (s : StoreState) (f g : FetchResult)
    (k : String) :
    (applyFetch (applyFetch s f).1 g).1.ready k = some true ∨
    (applyFetch (applyFetch s f).1 g).1.ready k = s.ready k := by
  rcases applyFetch_ready_mono (applyFetch s f).1 g k with h | h
  · exact Or.inl h
  · rw [h]; exact applyFetch_ready_mono s f k

/-- Three chained fetch completions never clear a readiness entry. -/
theorem applyFetch_ready_mono3 (s : StoreState) (f g i : FetchResult)
    (k : String) :
    (applyFetch (applyFetch (applyFetch s f).1 g).1 i).1.ready k = some true ∨
    (applyFetch (applyFetch (applyFetch s f).1 g).1 i).1.ready k =
      s.ready k := by
  rcases applyFetch_ready_mono (applyFetch (applyFetch s f).1 g).1 i k with
    h | h
  · exact Or.inl h
  · rw [h]; exact applyFetch_ready_mono2 s f g k

/-- After any sequence of fetch completions, a readiness entry is
`true` when the sequence holds a successful fetch for that key, and is
otherwise whatever it was at the start. -/
theorem run_ready_eq (fs : List FetchResult) :
    ∀ (s : StoreState) (k : String),
      (run s fs).ready k =
        if hasSuccessFor k fs then some true else s.ready k := by
  induction fs with
  | nil => intro s k; simp [run, hasSuccessFor]
  | cons f fs ih =>
    intro s k
    show (run (applyFetch s f).1 fs).ready k = _
    rw [ih, applyFetch_ready_eq]
    have hcons : hasSuccessFor k (f :: fs) = true ↔
        ((isSuccess f = true ∧ keyOf f = k) ∨ hasSuccessFor k fs = true) := by
      simp [hasSuccessFor, List.any_cons, Bool.or_eq_true, Bool.and_eq_true,
        decide_eq_true_eq]
    by_cases h1 : hasSuccessFor k fs = true
    · have hall : hasSuccessFor k (f :: fs) = true := hcons.mpr (Or.inr h1)
      simp [h1, hall]
    · by_cases h2 : isSuccess f = true ∧ keyOf f = k
      · have hall : hasSuccessFor k (f :: fs) = true := hcons.mpr (Or.inl h2)
        simp [h1, h2, hall]
      · have hall : ¬ hasSuccessFor k (f :: fs) = true := by
          intro hc
          rcases hcons.mp hc with h | h
          · exact h2 h
          · exact h1 h
        simp [h1, h2, hall]

/-- After any sequence of fetch completions, the summary cache holds
the payload of the most recent successful summary fetch, or the
starting value when none succeeded. -/
theorem run_summary_eq (fs : List FetchResult) :
    ∀ s : StoreState,
      (run s fs).summary = (lastSummarySuccess fs).getD s.summary := by
  induction fs with
  | nil => intro s; rfl
  | cons f fs ih =>
    intro s
    show (run (applyFetch s f).1 fs).summary = _
    rw [ih]
    cases h : lastSummarySuccess fs with
    | some r => simp [lastSummarySuccess, h]
    | none =>
      cases f with
      | summary r =>
        cases r <;>
          simp [lastSummarySuccess, h, applyFetch, fetchSummaryComplete]
      | rooms r =>
        cases r <;>
          simp [lastSummarySuccess, h, applyFetch, fetchRoomsComplete]
      | members r =>
        cases r <;>
          simp [lastSummarySuccess, h, applyFetch, fetchMembersComplete]
      | invitedMembers r =>
        cases r with
        | ok resp =>
          simp [lastSummarySuccess, h, applyFetch,
            fetchInvitedMembersComplete]
        | fail e =>
          simp only [lastSummarySuccess, h, applyFetch,
            fetchInvitedMembersComplete]
          split <;> simp

/-- After any sequence of fetch completions, the rooms cache holds the
projected chunk of the most recent successful rooms fetch, or the
starting value when none succeeded. -/
theorem run_rooms_eq (fs : List FetchResult) :
    ∀ s : StoreState,
      (run s fs).rooms =
        (match lastRoomsSuccess fs with
         | some resp => resp.chunk.map groupRoomFromApiObject
         | none => s.rooms) := by
  induction fs with
  | nil => intro s; rfl
  | cons f fs ih =>
    intro s
    show (run (applyFetch s f).1 fs).rooms = _
    rw [ih]
    cases h : lastRoomsSuccess fs with
    | some r => simp [lastRoomsSuccess, h]
    | none =>
      cases f with
      | summary r =>
        cases r <;>
          simp [lastRoomsSuccess, h, applyFetch, fetchSummaryComplete]
      | rooms r =>
        cases r <;>
          simp [lastRoomsSuccess, h, applyFetch, fetchRoomsComplete]
      | members r =>
        cases r <;>
          simp [lastRoomsSuccess, h, applyFetch, fetchMembersComplete]
      | invitedMembers r =>
        cases r with
        | ok resp =>
          simp [lastRoomsSuccess, h, applyFetch, fetchInvitedMembersComplete]
        | fail e =>
          simp only [lastRoomsSuccess, h, applyFetch,
            fetchInvitedMembersComplete]
          split <;> simp

/-- After any sequence of fetch completions, the members cache holds
the projected chunk of the most recent successful members fetch, or
the starting value when none succeeded. -/
theorem run_members_eq (fs : List FetchResult) :
    ∀ s : StoreState,
      (run s fs).members =
        (match lastMembersSuccess fs with
         | some resp => resp.chunk.map groupMemberFromApiObject
         | none => s.members) := by
  induction fs with
  | nil => intro s; rfl
  | cons f fs ih =>
    intro s
    show (run (applyFetch s f).1 fs).members = _
    rw [ih]
    cases h : lastMembersSuccess fs with
    | some r => simp [lastMembersSuccess, h]
    | none =>
      cases f with
      | summary r =>
        cases r <;>
          simp [lastMembersSuccess, h, applyFetch, fetchSummaryComplete]
      | rooms r =>
        cases r <;>
          simp [lastMembersSuccess, h, applyFetch, fetchRoomsComplete]
      | members r =>
        cases r <;>
          simp [lastMembersSuccess, h, applyFetch, fetchMembersComplete]
      | invitedMembers r =>
        cases r with
        | ok resp =>
          simp [lastMembersSuccess, h, applyFetch,
            fetchInvitedMembersComplete]
        | fail e =>
          simp only [lastMembersSuccess, h, applyFetch,
            fetchInvitedMembersComplete]
          split <;> simp

/-- After any sequence of fetch completions, the invited-members cache
holds the projected chunk of the most recent successful invited-members
fetch, or the starting value when none succeeded. -/
theorem run_invited_eq (fs : List FetchResult) :
    ∀ s : StoreState,
      (run s fs).invitedMembers =
        (match lastInvitedSuccess fs with
         | some resp => resp.chunk.map groupMemberFromApiObject
         | none => s.invitedMembers) := by
  induction fs with
  | nil => intro s; rfl
  | cons f fs ih =>
    intro s
    show (run (applyFetch s f).1 fs).invitedMembers = _
    rw [ih]
    cases h : lastInvitedSuccess fs with
    | some r => simp [lastInvitedSuccess, h]
    | none =>
      cases f with
      | summary r =>
        cases r <;>
          simp [lastInvitedSuccess, h, applyFetch, fetchSummaryComplete]
      | rooms r =>
        cases r <;>
          simp [lastInvitedSuccess, h, applyFetch, fetchRoomsComplete]
      | members r =>
        cases r <;>
          simp [lastInvitedSuccess, h, applyFetch, fetchMembersComplete]
      | invitedMembers r =>
        cases r with
        | ok resp =>
          simp [lastInvitedSuccess, h, applyFetch,
            fetchInvitedMembersComplete]
        | fail e =>
          simp only [lastInvitedSuccess, h, applyFetch,
            fetchInvitedMembersComplete]
          split <;> simp

/-- Every fetch completion belongs to one of the four state keys. -/
theorem keyOf_cases (f : FetchResult) :
    keyOf f = STATE_KEY_GroupMembers ∨
    keyOf f = STATE_KEY_GroupInvitedMembers ∨
    keyOf f = STATE_KEY_Summary ∨
    keyOf f = STATE_KEY_GroupRooms := by
  cases f <;> simp [keyOf]

/-- A key outside the four state keys never has a successful fetch. -/
theorem hasSuccessFor_outside (k : String) (fs : List FetchResult)
    (h1 : k ≠ STATE_KEY_GroupMembers) (h2 : k ≠ STATE_KEY_GroupInvitedMembers)
    (h3 : k ≠ STATE_KEY_Summary) (h4 : k ≠ STATE_KEY_GroupRooms) :
    hasSuccessFor k fs = false := by
  simp only [hasSuccessFor, List.any_eq_false]
  intro f _
  rcases keyOf_cases f with h | h | h | h <;>
    simp [h, Ne.symm h1, Ne.symm h2, Ne.symm h3, Ne.symm h4]

/-- Claim C1, counterexample: with the store freshly constructed,
`addRoomToGroup` whose backend call fulfils but whose rooms refresh
rejects with a 500 error returns a completion that FULFILS — it does
not fail with the refresh failure, contrary to the claim. -/
theorem refresh_failure_propagation_counterexample :
    (addRoomToGroup (initState "@alice:example.org" "+grp:example.org")
        "!room:example.org" false (Outcome.ok ())
        (Outcome.fail ⟨some 500, "Internal Server Error"⟩)).completion =
      Outcome.ok () ∧
    (addRoomToGroup (initState "@alice:example.org" "+grp:example.org")
        "!room:example.org" false (Outcome.ok ())
        (Outcome.fail ⟨some 500, "Internal Server Error"⟩)).completion ≠
      Outcome.fail ⟨some 500, "Internal Server Error"⟩ :=
  ⟨rfl, by decide⟩

/-- Claim C1, amended: for every mutation operation, once the backend
call fulfils the returned completion signal fulfils regardless of how
the refresh fetch settles; a refresh failure is reported only through
the "error" event and leaves the store fields untouched. -/
theorem mutation_completion_independent_of_refresh :
    (∀ (s : StoreState) (roomId : String) (isPublic : Bool)
        (roomsR : Outcome RoomsResp),
      (addRoomToGroup s roomId isPublic (Outcome.ok ()) roomsR).completion =
        Outcome.ok ()) ∧
    (∀ (s : StoreState) (roomId : String) (isPublic : Bool)
        (roomsR : Outcome RoomsResp),
      (updateGroupRoomVisibility s roomId isPublic (Outcome.ok ())
          roomsR).completion = Outcome.ok ()) ∧
    (∀ (s : StoreState) (roomId : String) (summaryR : Outcome Summary)
        (roomsR : Outcome RoomsResp),
      (removeRoomFromGroup s roomId (Outcome.ok ()) summaryR
          roomsR).completion = Outcome.ok ()) ∧
    (∀ (s : StoreState) (userId : String) (membersR invitedR :
        Outcome MembersResp),
      (inviteUserToGroup s userId (Outcome.ok ()) membersR
          invitedR).completion = Outcome.ok ()) ∧
    (∀ (s : StoreState) (roomsR : Outcome RoomsResp)
        (membersR invitedR : Outcome MembersResp),
      (acceptGroupInvite s (Outcome.ok ()) roomsR membersR
          invitedR).completion = Outcome.ok ()) ∧
    (∀ (s : StoreState) (roomId : String) (categoryId : Option String)
        (summaryR : Outcome Summary),
      (addRoomToGroupSummary s roomId categoryId (Outcome.ok ())
          summaryR).completion = Outcome.ok ()) ∧
    (∀ (s : StoreState) (userId : String) (roleId : Option String)
        (summaryR : Outcome Summary),
      (addUserToGroupSummary s userId roleId (Outcome.ok ())
          summaryR).completion = Outcome.ok ()) ∧
    (∀ (s : StoreState) (roomId : String) (summaryR : Outcome Summary),
      (removeRoomFromGroupSummary s roomId (Outcome.ok ())
          summaryR).completion = Outcome.ok ()) ∧
    (∀ (s : StoreState) (userId : String) (summaryR : Outcome Summary),
      (removeUserFromGroupSummary s userId (Outcome.ok ())
          summaryR).completion = Outcome.ok ()) ∧
    (∀ (s : StoreState) (isPublished : Bool) (summaryR : Outcome Summary),
      (setGroupPublicity s isPublished (Outcome.ok ())
          summaryR).completion = Outcome.ok ()) ∧
    (∀ (s : StoreState) (roomId : String) (isPublic : Bool) (e : HttpError),
      (addRoomToGroup s roomId isPublic (Outcome.ok ())
          (Outcome.fail e)).trace =
        [Action.callAddRoomToGroup roomId isPublic,
         Action.callGetGroupRooms, Action.emitError e] ∧
      (addRoomToGroup s roomId isPublic (Outcome.ok ())
          (Outcome.fail e)).state = s) ∧
    (∀ (s : StoreState) (roomId : String) (e1 e2 : HttpError),
      (removeRoomFromGroup s roomId (Outcome.ok ()) (Outcome.fail e1)
          (Outcome.fail e2)).trace =
        [Action.callRemoveRoomFromGroup roomId, Action.callGetGroupSummary,
         Action.callGetGroupRooms, Action.emitError e1,
         Action.emitError e2] ∧
      (removeRoomFromGroup s roomId (Outcome.ok ()) (Outcome.fail e1)
          (Outcome.fail e2)).state = s) := by
  refine ⟨fun s a b r => rfl, fun s a b r => rfl, fun s a r1 r2 => rfl,
    fun s a r1 r2 => rfl, fun s r1 r2 r3 => rfl, fun s a b r => rfl,
    fun s a b r => rfl, fun s a r => rfl, fun s a r => rfl,
    fun s a r => rfl, fun s a b e => ⟨rfl, rfl⟩,
    fun s a e1 e2 => ⟨rfl, rfl⟩⟩

/-- Claim C2: an invited-members fetch rejection carrying HTTP status
403 emits no event at all, while any other rejection emits exactly one
"error" event with the failure; in both cases every cache slice and
the readiness object are unchanged. -/
theorem invited_members_http403_silent (s : StoreState) (e : HttpError) :
    (fetchInvitedMembersComplete (Outcome.fail e) s).1 = s ∧
    (fetchInvitedMembersComplete (Outcome.fail e) s).2 =
      (if e.httpStatus = some 403 then [] else [Action.emitError e]) := by
  constructor
  · simp only [fetchInvitedMembersComplete]
    split <;> rfl
  · simp only [fetchInvitedMembersComplete]
    split <;> rename_i h <;> simp [h]

/-- Claim C5: `registerListener` appends the callback to the update
subscribers and its synchronous body emits exactly one "update"
notification first, and only then issues the summary, rooms, members
and invited-members backend fetches, in that order. -/
theorem registerListener_emits_update_then_fetches
    (ls : List Nat) (fn : Nat) :
    registerListener ls fn =
      (ls ++ [fn],
       [Action.emitUpdate, Action.callGetGroupSummary,
        Action.callGetGroupRooms, Action.callGetGroupUsers,
        Action.callGetGroupInvitedUsers]) ∧
    (registerListener ls fn).2.countP
      (fun a => decide (a = Action.emitUpdate)) = 1 ∧
    (registerListener ls fn).2.head? = some Action.emitUpdate := by
  refine ⟨rfl, ?_, rfl⟩
  rfl

/-- Claim C6: `removeRoomFromGroup` settles the remove-room backend
call first; when it rejects, neither refresh fetch is issued, the
state is untouched and the completion fails with that rejection; when
it fulfils, the summary fetch and then the rooms fetch are issued next
and the completion fulfils. -/
theorem removeRoomFromGroup_sequencing (s : StoreState) (roomId : String)
    (e : HttpError) (summaryR : Outcome Summary)
    (roomsR : Outcome RoomsResp) :
    removeRoomFromGroup s roomId (Outcome.fail e) summaryR roomsR =
      ⟨s, [Action.callRemoveRoomFromGroup roomId], Outcome.fail e⟩ ∧
    Action.callGetGroupSummary ∉
      (removeRoomFromGroup s roomId (Outcome.fail e) summaryR
        roomsR).trace ∧
    Action.callGetGroupRooms ∉
      (removeRoomFromGroup s roomId (Outcome.fail e) summaryR
        roomsR).trace ∧
    (removeRoomFromGroup s roomId (Outcome.ok ()) summaryR
        roomsR).trace.take 3 =
      [Action.callRemoveRoomFromGroup roomId, Action.callGetGroupSummary,
       Action.callGetGroupRooms] ∧
    (removeRoomFromGroup s roomId (Outcome.ok ()) summaryR
        roomsR).completion = Outcome.ok () := by
  refine ⟨rfl, ?_, ?_, rfl, rfl⟩
  · simp [removeRoomFromGroup]
  · simp [removeRoomFromGroup]

/-- Claim C7: `setGroupPublicity` calls the flair-cache invalidation
with the authenticated user identifier only once the backend publicity
call fulfils and before issuing the summary refresh fetch; when the
backend call rejects, the invalidation is never called. -/
theorem setGroupPublicity_invalidation_order (s : StoreState)
    (isPublished : Bool) (e : HttpError) (summaryR : Outcome Summary) :
    setGroupPublicity s isPublished (Outcome.fail e) summaryR =
      ⟨s, [Action.callSetGroupPublicity isPublished], Outcome.fail e⟩ ∧
    (∀ uid : String,
      Action.invalidatePublicisedGroups uid ∉
        (setGroupPublicity s isPublished (Outcome.fail e)
          summaryR).trace) ∧
    (setGroupPublicity s isPublished (Outcome.ok ())
        summaryR).trace.take 3 =
      [Action.callSetGroupPublicity isPublished,
       Action.invalidatePublicisedGroups s.credentialsUserId,
       Action.callGetGroupSummary] := by
  refine ⟨rfl, ?_, rfl⟩
  intro uid
  simp [setGroupPublicity]

/-- Claim C8: construction rejects an absent or empty group identifier
with the construction error, and for any non-empty identifier it
succeeds with the summary cache an empty record, the three list caches
empty, and every readiness entry unset. -/
theorem construct_requires_groupId (uid : String) :
    construct uid none =
      Except.error "GroupStore needs a valid groupId to be created" ∧
    construct uid (some "") =
      Except.error "GroupStore needs a valid groupId to be created" ∧
    ∀ gid : String, gid ≠ "" →
      construct uid (some gid) = Except.ok (initState uid gid) ∧
      getSummary (initState uid gid) = ⟨none⟩ ∧
      getGroupRooms (initState uid gid) = [] ∧
      getGroupMembers (initState uid gid) = [] ∧
      getGroupInvitedMembers (initState uid gid) = [] ∧
      ∀ k : String, isStateReady (initState uid gid) k = none := by
  refine ⟨rfl, by simp [construct], ?_⟩
  intro gid hg
  exact ⟨by simp [construct, hg], rfl, rfl, rfl, rfl, fun k => rfl⟩

/-- Claim C8, witness: construction succeeds on a concrete non-empty
group identifier with the initial field values. -/
theorem construct_requires_groupId_witness :
    construct "@alice:example.org" (some "+grp:example.org") =
      Except.ok (initState "@alice:example.org" "+grp:example.org") :=
  ((construct_requires_groupId "@alice:example.org").2.2
    "+grp:example.org" (by decide)).1

/-- Claim C3: after any sequence of fetch completions from a freshly
constructed store, each accessor returns the projected payload of the
most recent successful fetch of its slice — or the initial empty value
when none has succeeded — and each readiness entry is `true` exactly
when its slice has had a successful fetch; in particular a failed
fetch changes neither. -/
theorem cache_slice_integrity (uid gid : String) (fs : List FetchResult) :
    getSummary (run (initState uid gid) fs) =
      (lastSummarySuccess fs).getD ⟨none⟩ ∧
    getGroupRooms (run (initState uid gid) fs) =
      (match lastRoomsSuccess fs with
       | some resp => resp.chunk.map groupRoomFromApiObject
       | none => []) ∧
    getGroupMembers (run (initState uid gid) fs) =
      (match lastMembersSuccess fs with
       | some resp => resp.chunk.map groupMemberFromApiObject
       | none => []) ∧
    getGroupInvitedMembers (run (initState uid gid) fs) =
      (match lastInvitedSuccess fs with
       | some resp => resp.chunk.map groupMemberFromApiObject
       | none => []) ∧
    isStateReady (run (initState uid gid) fs) STATE_KEY_Summary =
      (if hasSuccessFor STATE_KEY_Summary fs then some true else none) ∧
    isStateReady (run (initState uid gid) fs) STATE_KEY_GroupRooms =
      (if hasSuccessFor STATE_KEY_GroupRooms fs then some true else none) ∧
    isStateReady (run (initState uid gid) fs) STATE_KEY_GroupMembers =
      (if hasSuccessFor STATE_KEY_GroupMembers fs then some true
       else none) ∧
    isStateReady (run (initState uid gid) fs)
        STATE_KEY_GroupInvitedMembers =
      (if hasSuccessFor STATE_KEY_GroupInvitedMembers fs then some true
       else none) :=
  ⟨run_summary_eq fs (initState uid gid),
   run_rooms_eq fs (initState uid gid),
   run_members_eq fs (initState uid gid),
   run_invited_eq fs (initState uid gid),
   run_ready_eq fs (initState uid gid) STATE_KEY_Summary,
   run_ready_eq fs (initState uid gid) STATE_KEY_GroupRooms,
   run_ready_eq fs (initState uid gid) STATE_KEY_GroupMembers,
   run_ready_eq fs (initState uid gid) STATE_KEY_GroupInvitedMembers⟩

/-- Claim C4: one fetch completion sets the readiness entry of its own
key to `true` exactly when it is successful and leaves every other
entry unchanged; from a fresh store an entry is `true` exactly when a
successful fetch for that key has completed; and no mutation operation
ever moves a readiness entry anywhere but to `true` — none resets one. -/
theorem readiness_monotone :
    (∀ (s : StoreState) (f : FetchResult) (k : String),
      (applyFetch s f).1.ready k =
        if isSuccess f = true ∧ keyOf f = k then some true
        else s.ready k) ∧
    (∀ (uid gid : String) (fs : List FetchResult) (k : String),
      (run (initState uid gid) fs).ready k =
        if hasSuccessFor k fs then some true else none) ∧
    (∀ (s : StoreState) (roomId : String) (isPublic : Bool)
        (backend : Outcome Unit) (roomsR : Outcome RoomsResp) (k : String),
      (addRoomToGroup s roomId isPublic backend roomsR).state.ready k =
          some true ∨
      (addRoomToGroup s roomId isPublic backend roomsR).state.ready k =
          s.ready k) ∧
    (∀ (s : StoreState) (roomId : String) (isPublic : Bool)
        (backend : Outcome Unit) (roomsR : Outcome RoomsResp) (k : String),
      (updateGroupRoomVisibility s roomId isPublic backend
          roomsR).state.ready k = some true ∨
      (updateGroupRoomVisibility s roomId isPublic backend
          roomsR).state.ready k = s.ready k) ∧
    (∀ (s : StoreState) (roomId : String) (backend : Outcome Unit)
        (summaryR : Outcome Summary) (roomsR : Outcome RoomsResp)
        (k : String),
      (removeRoomFromGroup s roomId backend summaryR
          roomsR).state.ready k = some true ∨
      (removeRoomFromGroup s roomId backend summaryR
          roomsR).state.ready k = s.ready k) ∧
    (∀ (s : StoreState) (userId : String) (backend : Outcome Unit)
        (membersR invitedR : Outcome MembersResp) (k : String),
      (inviteUserToGroup s userId backend membersR
          invitedR).state.ready k = some true ∨
      (inviteUserToGroup s userId backend membersR
          invitedR).state.ready k = s.ready k) ∧
    (∀ (s : StoreState) (backend : Outcome Unit)
        (roomsR : Outcome RoomsResp)
        (membersR invitedR : Outcome MembersResp) (k : String),
      (acceptGroupInvite s backend roomsR membersR
          invitedR).state.ready k = some true ∨
      (acceptGroupInvite s backend roomsR membersR
          invitedR).state.ready k = s.ready k) ∧
    (∀ (s : StoreState) (roomId : String) (categoryId : Option String)
        (backend : Outcome Unit) (summaryR : Outcome Summary) (k : String),
      (addRoomToGroupSummary s roomId categoryId backend
          summaryR).state.ready k = some true ∨
      (addRoomToGroupSummary s roomId categoryId backend
          summaryR).state.ready k = s.ready k) ∧
    (∀ (s : StoreState) (userId : String) (roleId : Option String)
        (backend : Outcome Unit) (summaryR : Outcome Summary) (k : String),
      (addUserToGroupSummary s userId roleId backend
          summaryR).state.ready k = some true ∨
      (addUserToGroupSummary s userId roleId backend
          summaryR).state.ready k = s.ready k) ∧
    (∀ (s : StoreState) (roomId : String) (backend : Outcome Unit)
        (summaryR : Outcome Summary) (k : String),
      (removeRoomFromGroupSummary s roomId backend
          summaryR).state.ready k = some true ∨
      (removeRoomFromGroupSummary s roomId backend
          summaryR).state.ready k = s.ready k) ∧
    (∀ (s : StoreState) (userId : String) (backend : Outcome Unit)
        (summaryR : Outcome Summary) (k : String),
      (removeUserFromGroupSummary s userId backend
          summaryR).state.ready k = some true ∨
      (removeUserFromGroupSummary s userId backend
          summaryR).state.ready k = s.ready k) ∧
    (∀ (s : StoreState) (isPublished : Bool) (backend : Outcome Unit)
        (summaryR : Outcome Summary) (k : String),
      (setGroupPublicity s isPublished backend
          summaryR).state.ready k = some true ∨
      (setGroupPublicity s isPublished backend
          summaryR).state.ready k = s.ready k) := by
  refine ⟨applyFetch_ready_eq,
    fun uid gid fs k => run_ready_eq fs (initState uid gid) k,
    ?_, ?_, ?_, ?_, ?_, ?_, ?_, ?_, ?_, ?_⟩
  · intro s roomId isPublic backend roomsR k
    cases backend with
    | fail e => exact Or.inr rfl
    | ok u => exact applyFetch_ready_mono s (FetchResult.rooms roomsR) k
  · intro s roomId isPublic backend roomsR k
    cases backend with
    | fail e => exact Or.inr rfl
    | ok u => exact applyFetch_ready_mono s (FetchResult.rooms roomsR) k
  · intro s roomId backend summaryR roomsR k
    cases backend with
    | fail e => exact Or.inr rfl
    | ok u =>
      exact applyFetch_ready_mono2 s (FetchResult.summary summaryR)
        (FetchResult.rooms roomsR) k
  · intro s userId backend membersR invitedR k
    cases backend with
    | fail e => exact Or.inr rfl
    | ok u =>
      exact applyFetch_ready_mono2 s (FetchResult.members membersR)
        (FetchResult.invitedMembers invitedR) k
  · intro s backend roomsR membersR invitedR k
    cases backend with
    | fail e => exact Or.inr rfl
    | ok u =>
      exact applyFetch_ready_mono3 s (FetchResult.rooms roomsR)
        (FetchResult.members membersR)
        (FetchResult.invitedMembers invitedR) k
  · intro s roomId categoryId backend summaryR k
    cases backend with
    | fail e => exact Or.inr rfl
    | ok u => exact applyFetch_ready_mono s (FetchResult.summary summaryR) k
  · intro s userId roleId backend summaryR k
    cases backend with
    | fail e => exact Or.inr rfl
    | ok u => exact applyFetch_ready_mono s (FetchResult.summary summaryR) k
  · intro s roomId backend summaryR k
    cases backend with
    | fail e => exact Or.inr rfl
    | ok u => exact applyFetch_ready_mono s (FetchResult.summary summaryR) k
  · intro s userId backend summaryR k
    cases backend with
    | fail e => exact Or.inr rfl
    | ok u => exact applyFetch_ready_mono s (FetchResult.summary summaryR) k
  · intro s isPublished backend summaryR k
    cases backend with
    | fail e => exact Or.inr rfl
    | ok u => exact applyFetch_ready_mono s (FetchResult.summary summaryR) k

/-- Claim C9, counterexample: after a successful summary fetch whose
payload carries a `user` sub-record without the `is_publicised` field,
`getGroupPublicity` returns the JS `undefined` value, not `null` as
the claim states for an absent field. -/
theorem publicity_absent_field_counterexample :
    getGroupPublicity
        (fetchSummaryComplete (Outcome.ok ⟨some ⟨none, none⟩⟩)
          (initState "@alice:example.org" "+grp:example.org")).1 =
      JsNullable.undef ∧
    JsNullable.undef ≠ JsNullable.null :=
  ⟨rfl, by decide⟩

/-- Claim C9, amended: `getGroupPublicity` and `isUserPrivileged`
return `null` exactly when the summary has no (truthy) `user`
sub-record — in particular before the summary is loaded, since the
initial summary is the empty record — and otherwise return the raw
optional field, which is the JS `undefined` value (not `null`) when
the field is absent. -/
theorem publicity_privilege_accessors (s : StoreState) :
    (s.summary.user = none →
      getGroupPublicity s = JsNullable.null ∧
      isUserPrivileged s = JsNullable.null) ∧
    (∀ u : SummaryUser, s.summary.user = some u →
      getGroupPublicity s = jsField u.is_publicised ∧
      isUserPrivileged s = jsField u.is_privileged) ∧
    (∀ uid gid : String,
      getGroupPublicity (initState uid gid) = JsNullable.null ∧
      isUserPrivileged (initState uid gid) = JsNullable.null) := by
  refine ⟨?_, ?_, fun uid gid => ⟨rfl, rfl⟩⟩
  · intro h
    constructor <;> simp [getGroupPublicity, isUserPrivileged, h]
  · intro u h
    constructor <;> simp [getGroupPublicity, isUserPrivileged, h]

/-- Claim C9, witness: on a freshly constructed store the summary has
no `user` sub-record and both accessors return `null`. -/
theorem publicity_privilege_accessors_witness :
    getGroupPublicity (initState "@alice:example.org" "+grp:example.org") =
      JsNullable.null ∧
    isUserPrivileged (initState "@alice:example.org" "+grp:example.org") =
      JsNullable.null :=
  (publicity_privilege_accessors
    (initState "@alice:example.org" "+grp:example.org")).1 rfl

/-- Claim C10: from a fresh store, `isStateReady` returns the unset
value `none` (JS `undefined`, never the boolean `false`) for every key
until a successful fetch of that slice completes, after which it
returns `true`; for a key outside the four state keys it always
returns `none`. -/
theorem isStateReady_undefined_before_success (uid gid : String)
    (fs : List FetchResult) (k : String) :
    (isStateReady (run (initState uid gid) fs) k =
      if hasSuccessFor k fs then some true else none) ∧
    isStateReady (run (initState uid gid) fs) k ≠ some false ∧
    (k ≠ STATE_KEY_GroupMembers → k ≠ STATE_KEY_GroupInvitedMembers →
     k ≠ STATE_KEY_Summary → k ≠ STATE_KEY_GroupRooms →
     isStateReady (run (initState uid gid) fs) k = none) := by
  have h1 : isStateReady (run (initState uid gid) fs) k =
      if hasSuccessFor k fs then some true else none :=
    run_ready_eq fs (initState uid gid) k
  refine ⟨h1, ?_, ?_⟩
  · rw [h1]
    split <;> simp
  · intro ha hb hc hd
    rw [h1, hasSuccessFor_outside k fs ha hb hc hd]
    simp

/-- Claim C10, witness: after one successful summary fetch, the
`Summary` entry is `true` while a key outside the four state keys
still reads as unset. -/
theorem isStateReady_undefined_before_success_witness :
    isStateReady
        (run (initState "@alice:example.org" "+grp:example.org")
          [FetchResult.summary (Outcome.ok ⟨none⟩)]) "Bogus" = none :=
  (isStateReady_undefined_before_success "@alice:example.org"
      "+grp:example.org" [FetchResult.summary (Outcome.ok ⟨none⟩)]
      "Bogus").2.2 (by decide) (by decide) (by decide) (by decide)

end GroupStore
